import Mathlib

/-!
Verification development for the homebridge-cync-app repository.

The definitions below are shallow embeddings of the TypeScript sources:

* `src/cync/cync-client.ts`   — session manager, topology builder (`loadConfiguration`)
* `src/cync/config-client.ts` — cloud HTTP client and LAN login-blob builder
* `src/cync/token-store.ts`   — persisted credential store
* `src/cync/tcp-client.ts`    — LAN transport (framing, decoding, command queue,
                                reconnect bookkeeping)

Byte buffers are modelled as `List Nat` (each element a byte value), JS numbers
that hold integral ids as `Int` (JS `%` is truncated remainder, `Int.tmod`;
`Math.floor` of a quotient is `Int.fdiv`).  Code that throws is modelled with
`Except`/`Option`.  Asynchronous control flow (the promise-chained command
queue) is modelled as an explicit small-step machine whose scheduling rule is
exactly the guarantee of JS promise chaining: a `.then` continuation runs only
after its predecessor has settled, and steps of the single-threaded event loop
are atomic.
-/

/-! ## Byte-level helpers -/

/-- Big-endian 4-byte encoding of a `Nat` below `2 ^ 32`
(`Buffer.writeUInt32BE`). -/
def u32be (n : Nat) : List Nat :=
  [n / 16777216 % 256, n / 65536 % 256, n / 256 % 256, n % 256]

/-- Big-endian 2-byte encoding of a `Nat` below `2 ^ 16`
(`Buffer.writeUInt16BE`). -/
def u16be (n : Nat) : List Nat :=
  [n / 256 % 256, n % 256]

/-- Read a big-endian 32-bit value from the first four bytes of a buffer
(`Buffer.readUInt32BE(0)`); callers in the source always check the length
first, so out-of-range reads never happen where this is used. -/
def readU32BE0 (l : List Nat) : Nat :=
  l.getD 0 0 * 16777216 + l.getD 1 0 * 65536 + l.getD 2 0 * 256 + l.getD 3 0

/-- Node `Buffer.from(string, 'ascii')` keeps the low byte of each UTF-16
unit. -/
def asciiByte (c : Char) : Nat := c.toNat % 256

/-! ## C1 — mesh-index computation in `loadConfiguration`
(`src/cync/cync-client.ts` lines 762–777) -/

/-- Translated from `loadConfiguration`:
```
const homeIdNum = Number(mesh.id);
const deviceIdNum = …
let meshIndex: number | undefined;
if (!Number.isNaN(homeIdNum) && !Number.isNaN(deviceIdNum) && homeIdNum !== 0) {
  const mod = deviceIdNum % homeIdNum;
  meshIndex = (mod % 1000) + Math.floor(mod / 1000) * 256;
}
```
Numeric ids are integral, so the `Number.isNaN` guards cannot fire and the
JS `%` is `Int.tmod`; `Math.floor (mod / 1000)` is `Int.fdiv mod 1000`. -/
def loadConfigMeshIndex (homeId rawDeviceId : Int) : Option Int :=
  if homeId ≠ 0 then
    let m := Int.tmod rawDeviceId homeId
    some (Int.tmod m 1000 + Int.fdiv m 1000 * 256)
  else
    none

/-- The spec's mesh-index formula, written from the spec's words:
`mod = rawDeviceId mod homeId`; `index = (mod mod 1000) + floor(mod / 1000) * 256`
(with `mod` the JS remainder the formula describes). -/
def specMeshIndex (homeId rawDeviceId : Int) : Int :=
  let m := Int.tmod rawDeviceId homeId
  Int.tmod m 1000 + Int.fdiv m 1000 * 256

/-! ## C9 — LAN login-blob builders
(`src/cync/config-client.ts` lines 376–415 and `src/cync/cync-client.ts`
lines 221–245) -/

/-- Translated from `ConfigClient.buildLanLoginCode(userId, authorize)`.
The source takes `userId` as a decimal string and applies
`Number.parseInt(userId, 10)`; we take the parsed integral value directly
(the claim quantifies over numeric user ids).  `userIdNum >>> 0` is
`emod 2 ^ 32`; the builder throws when the length byte overflows or the
parsed user id is negative. -/
def ConfigClient.buildLanLoginCode (userIdNum : Int) (authorize : List Char) :
    Except String (List Nat) :=
  let authBytes := authorize.map asciiByte
  let lengthByte := 10 + authBytes.length
  if 255 < lengthByte then
    .error "Cync LAN authorize token too long to encode."
  else if userIdNum < 0 then
    .error "Invalid Cync userId for LAN auth"
  else
    .ok ([0x13, 0x00, 0x00, 0x00] ++ [lengthByte % 256] ++ [0x03]
      ++ u32be (userIdNum.emod 4294967296).toNat
      ++ u16be authBytes.length ++ authBytes ++ [0x00, 0x00, 0xb4])

/-- Translated from `CyncClient.buildLanLoginCode(authorize, userId)`.
`Buffer.from([10 + authorizeBytes.length])` masks the length byte to 8 bits;
`userIdBytes.writeUInt32BE(userId)` throws a `RangeError` unless
`0 ≤ userId < 2 ^ 32`, and `authLenBytes.writeUInt16BE` throws unless the
authorize length fits 16 bits. -/
def CyncClient.buildLanLoginCode (authorize : List Char) (userId : Int) :
    Except String (List Nat) :=
  let authorizeBytes := authorize.map asciiByte
  let lengthByte := (10 + authorizeBytes.length) % 256
  if userId < 0 ∨ 4294967296 ≤ userId then
    .error "RangeError: writeUInt32BE value out of range"
  else if 65536 ≤ authorizeBytes.length then
    .error "RangeError: writeUInt16BE value out of range"
  else
    .ok ([0x13, 0x00, 0x00, 0x00] ++ [lengthByte] ++ [0x03]
      ++ u32be userId.toNat
      ++ u16be authorizeBytes.length ++ authorizeBytes ++ [0x00, 0x00, 0xb4])

/-- The blob layout as the spec words it: fixed header, one length byte
(`10 + authorize length`), a command tag byte, big-endian 4-byte userId,
big-endian 2-byte authorize length, the authorize bytes, fixed trailer. -/
def specLanLoginBlob (authorize : List Char) (userId : Nat) : List Nat :=
  let authBytes := authorize.map asciiByte
  [0x13, 0x00, 0x00, 0x00] ++ [10 + authBytes.length] ++ [0x03]
    ++ u32be userId ++ u16be authBytes.length ++ authBytes ++ [0x00, 0x00, 0xb4]

/-! ## C3 — inbound framing
(`src/cync/tcp-client.ts` lines 896–901 and 930–959) -/

/-- Translated from `processIncoming`:
```
while (this.readBuffer.length >= 5) {
  const type = this.readBuffer.readUInt8(0);
  const len = this.readBuffer.readUInt32BE(1);
  const total = 5 + len;
  if (this.readBuffer.length < total) return;
  const body = this.readBuffer.subarray(5, total);
  … dispatch (ACK log for 0x7b, otherwise handleIncomingFrame) …
  this.readBuffer = this.readBuffer.subarray(total);
}
```
The result is the list of consumed `(type, body)` records, in dispatch
order, together with the unconsumed remainder of the buffer.  Every
consumed record is dispatched exactly once (either as an ACK log or via
`handleIncomingFrame`). -/
def processIncoming (buf : List Nat) : List (Nat × List Nat) × List Nat :=
  if h5 : 5 ≤ buf.length then
    let t := buf.getD 0 0
    let len := readU32BE0 (buf.drop 1)
    let total := 5 + len
    if buf.length < total then ([], buf)
    else
      let body := (buf.drop 5).take len
      let r := processIncoming (buf.drop total)
      ((t, body) :: r.1, r.2)
  else ([], buf)
termination_by buf.length
decreasing_by simp only [List.length_drop]; omega

/-- Translated from the socket `data` listener
(`attachSocketListeners`): the chunk is appended to `readBuffer` and
`processIncoming` runs; the state carried across reads is the list of
already-dispatched records plus the buffered remainder. -/
def feedChunk (st : List (Nat × List Nat) × List Nat) (chunk : List Nat) :
    List (Nat × List Nat) × List Nat :=
  let r := processIncoming (st.2 ++ chunk)
  (st.1 ++ r.1, r.2)

/-- Feeding a whole sequence of socket reads, starting from an empty buffer. -/
def feedAll (chunks : List (List Nat)) : List (Nat × List Nat) × List Nat :=
  chunks.foldl feedChunk ([], [])

/-- Fuel-driven twin of `processIncoming` (structural recursion), used so that
concrete byte streams can be evaluated by `decide`. -/
def processIncomingFuel : Nat → List Nat → List (Nat × List Nat) × List Nat
  | 0, buf => ([], buf)
  | fuel + 1, buf =>
    if 5 ≤ buf.length then
      let len := readU32BE0 (buf.drop 1)
      if buf.length < 5 + len then ([], buf)
      else
        let r := processIncomingFuel fuel (buf.drop (5 + len))
        ((buf.getD 0 0, (buf.drop 5).take len) :: r.1, r.2)
    else ([], buf)

/-! ## C4 — stored-credential expiry handling
(`src/cync/token-store.ts` lines 29–44 and `src/cync/cync-client.ts`
lines 253–334) -/

/-- The persisted credential record (`CyncTokenData` in
`src/cync/token-store.ts`).  `lanLoginCode` is stored base64-encoded; we keep
the decoded bytes. -/
structure CyncTokenData where
  userId : String
  accessToken : String
  refreshToken : Option String
  expiresAt : Option Int
  authorize : Option String
  lanLoginCode : Option (List Nat)
deriving DecidableEq, Repr

/-- Translated from `CyncTokenStore.load`:
```
const data = JSON.parse(raw) as CyncTokenData;
if (data.expiresAt && data.expiresAt <= Date.now()) return null;
return data;
```
`stored` is the parse result (`none` when the file is missing or unreadable).
JS truthiness: an `expiresAt` of `0` is falsy, so the expiry check is skipped
for it. -/
def CyncTokenStore.load (stored : Option CyncTokenData) (now : Int) :
    Option CyncTokenData :=
  match stored with
  | none => none
  | some d =>
    match d.expiresAt with
    | some e => if e ≠ 0 ∧ e ≤ now then none else some d
    | none => some d

/-- Outcome of `CyncClient.ensureLoggedIn`. -/
inductive LoginOutcome where
  | usedStored (tok : CyncTokenData)
  | missingCredentials
  | needsTwoFactorCode
  | completedTwoFactor
deriving DecidableEq, Repr

/-- Result of `ensureLoggedIn` together with whether any token refresh was
attempted on the way. -/
structure EnsureLoggedInResult where
  outcome : LoginOutcome
  refreshAttempted : Bool
deriving DecidableEq, Repr

/-- Translated from `CyncClient.ensureLoggedIn` (lines 253–334): a stored
token returned by the store is used as-is (`applyAccessToken` + `return true`)
— no branch of the function invokes `refreshAccessToken`; with no stored
token, missing username/password fails, otherwise a 2FA code is requested or,
when one is configured, 2FA login is completed. -/
def ensureLoggedIn (stored : Option CyncTokenData) (now : Int)
    (username password : String) (twoFactor : Option String) :
    EnsureLoggedInResult :=
  match CyncTokenStore.load stored now with
  | some tok => ⟨.usedStored tok, false⟩
  | none =>
    if username = "" ∨ password = "" then ⟨.missingCredentials, false⟩
    else
      let trimmedCode := match twoFactor with
        | some s => s.trim
        | none => ""
      if trimmedCode = "" then ⟨.needsTwoFactorCode, false⟩
      else ⟨.completedTwoFactor, false⟩

/-! ## C5 — expired-token detection and retry-once wrappers
(`src/cync/cync-client.ts` lines 34–62, 445–490, 547–564, 567–606) -/

/-- Does `l` start with `pat`? (helper for JS `String.includes`). -/
def leadsWith : List Char → List Char → Bool
  | _, [] => true
  | [], _ :: _ => false
  | c :: cs, p :: ps => c = p && leadsWith cs ps

/-- Does `l` contain `pat` as a contiguous run? (JS `String.includes`). -/
def containsSeq : List Char → List Char → Bool
  | [], pat => leadsWith [] pat
  | l@(_ :: cs), pat => leadsWith l pat || containsSeq cs pat

/-- JS `hay.includes(needle)`. -/
def strIncludes (hay needle : String) : Bool :=
  containsSeq hay.toList needle.toList

/-- The optional `{ error: { msg, code } }` body carried by cloud errors. -/
structure ErrorBody where
  msg : Option String
  code : Option Int
deriving DecidableEq, Repr

/-- The error shapes the session layer inspects: whether the thrown value is
an `Error` instance, its `message`, an HTTP `status`, and the optional
`error` body. -/
structure CloudError where
  isErrorInstance : Bool
  message : Option String
  status : Option Int
  errorField : Option ErrorBody
deriving DecidableEq, Repr

/-- Translated from `CyncClient.isAccessTokenExpiredError` (lines 445–490):
`none` models a falsy `err`; an `Error` instance matches on its message
(equality or substring); the raw-JSON shape matches on
`error.msg === 'Access-Token Expired'` or `error.code === 4031021`; the
fallback matches HTTP 403 plus a truthy message containing the substring. -/
def isAccessTokenExpiredError (err : Option CloudError) : Bool :=
  match err with
  | none => false
  | some e =>
    (e.isErrorInstance &&
      (let m := e.message.getD ""
       m = "Access-Token Expired" || strIncludes m "Access-Token Expired"))
    ||
    (match e.errorField with
     | some b => b.msg = some "Access-Token Expired" || b.code = some 4031021
     | none => false)
    ||
    (match e.status, e.message with
     | some 403, some m => m ≠ "" && strIncludes m "Access-Token Expired"
     | _, _ => false)

/-- Translated from `CyncClient.isDevicePropertyNotExistsError`
(lines 34–62): HTTP 404 with `error.code === 4041009`, or a truthy message
containing `'device property not exists'`. -/
def isDevicePropertyNotExistsError (err : Option CloudError) : Bool :=
  match err with
  | none => false
  | some e =>
    (e.status = some 404 &&
      (match e.errorField with
       | some b => b.code = some 4041009
       | none => false))
    ||
    (match e.message with
     | some m => m ≠ "" && strIncludes m "device property not exists"
     | none => false)

/-- Translated from `CyncClient.getCloudConfigWithRefresh` (lines 547–564).
The two cloud round-trips and the refresh are the only effects; they are
supplied as oracle outcomes (`firstAttempt`, `refreshOk`, `secondAttempt`).
The result carries the value or error handed to the caller and the number of
`getCloudConfig` invocations made. -/
def getCloudConfigWithRefresh {α : Type} (firstAttempt : Except CloudError α)
    (hasToken refreshOk : Bool) (secondAttempt : Except CloudError α) :
    Except CloudError α × Nat :=
  match firstAttempt with
  | .ok v => (.ok v, 1)
  | .error e =>
    if isAccessTokenExpiredError (some e) && hasToken then
      if refreshOk then (secondAttempt, 2)
      else (.error e, 1)
    else (.error e, 1)

/-- Translated from `CyncClient.getDevicePropertiesWithRefresh`
(lines 567–606): a product id already marked unsupported short-circuits to
`{}` with no call; a "device property not exists" failure marks the product
and returns `{}`; an expired-token failure refreshes and retries once; any
other failure (and any failure of the retried call) propagates unmodified. -/
def getDevicePropertiesWithRefresh {α : Type} (unsupported : Bool)
    (emptyResult : α) (firstAttempt : Except CloudError α)
    (hasToken refreshOk : Bool) (secondAttempt : Except CloudError α) :
    Except CloudError α × Nat :=
  if unsupported then (.ok emptyResult, 0)
  else
    match firstAttempt with
    | .ok v => (.ok v, 1)
    | .error e =>
      if isDevicePropertyNotExistsError (some e) then (.ok emptyResult, 1)
      else if isAccessTokenExpiredError (some e) && hasToken then
        if refreshOk then (secondAttempt, 2)
        else (.error e, 1)
      else (.error e, 1)

/-! ## C6 — refresh-token exchange with password-login fallback
(`src/cync/cync-client.ts` lines 89–173 and 493–544;
`src/cync/config-client.ts` lines 86–425) -/

/-- The cloud-network primitives the session layer invokes; used to record
which calls a control path makes. -/
inductive CloudCall where
  | refreshExchange
  | passwordLogin
  | twoFactorRequest
  | twoFactorLogin
deriving DecidableEq, Repr

/-- Modelled from the spec: `ConfigClient.refreshAccessToken` is invoked by
`CyncClient.refreshAccessToken` but its body is not under `src/` (the
`ConfigClient` class there has no such method); the spec describes it as a
refresh-token exchange returning a fresh access token with optional rotated
refresh token and expiry.  Its outcome is supplied as an oracle value
(`none` = the call threw). -/
structure RefreshResp where
  accessToken : String
  refreshToken : Option String
  expiresAt : Option Int
deriving DecidableEq, Repr

/-- Modelled from the spec: `ConfigClient.loginWithPassword` is invoked by
`CyncClient.loginWithPasswordForToken` but its body is not under `src/`; the
spec describes it as a full password login (no 2FA code) returning a session
with user id, tokens, and the `authorize` string.  `userIdNum` is the
`Number.parseInt(session.userId, 10)` result (`none` = NaN). -/
structure PwSession where
  userId : String
  userIdNum : Option Int
  accessToken : Option String
  refreshToken : Option String
  expiresAt : Option Int
  authorize : Option String
deriving DecidableEq, Repr

/-- Translated from `CyncClient.loginWithPasswordForToken` (lines 89–173):
missing username/password aborts with `null`; otherwise a single
`loginWithPassword` call is made (no 2FA request, no 2FA login); a session
without an access token yields `null`; when `authorize` is present and the
parsed user id is a non-negative number the LAN blob is derived (a
`RangeError` inside `buildLanLoginCode` is caught by the outer
`try`/`catch` and yields `null`); on success the assembled token is saved
and returned.  Result: (returned token, cloud calls made, tokens saved). -/
def loginWithPasswordForToken (username password : String)
    (pwSession : Option PwSession) :
    Option CyncTokenData × List CloudCall × List CyncTokenData :=
  if username = "" ∨ password = "" then (none, [], [])
  else
    match pwSession with
    | none => (none, [.passwordLogin], [])
    | some s =>
      match s.accessToken with
      | none => (none, [.passwordLogin], [])
      | some access =>
        let blob : Except String (Option (List Nat)) :=
          match s.authorize, s.userIdNum with
          | some a, some uid =>
            if 0 ≤ uid then
              (CyncClient.buildLanLoginCode a.toList uid).map some
            else .ok none
          | _, _ => .ok none
        match blob with
        | .error _ => (none, [.passwordLogin], [])
        | .ok lanCode =>
          let next : CyncTokenData :=
            { userId := s.userId, accessToken := access,
              refreshToken := s.refreshToken, expiresAt := s.expiresAt,
              authorize := s.authorize, lanLoginCode := lanCode }
          (some next, [.passwordLogin], [next])

/-- Translated from `CyncClient.refreshAccessToken` (lines 493–544): with a
stored refresh token the exchange is tried first; on success the merged token
is saved and returned; on a thrown exchange — or with no stored refresh token
at all — control falls through to `loginWithPasswordForToken`. -/
def CyncClient.refreshAccessToken (stored : CyncTokenData)
    (exchange : Option RefreshResp) (pwSession : Option PwSession)
    (username password : String) :
    Option CyncTokenData × List CloudCall × List CyncTokenData :=
  match stored.refreshToken with
  | some _ =>
    match exchange with
    | some resp =>
      let next : CyncTokenData :=
        { stored with
          accessToken := resp.accessToken,
          refreshToken := match resp.refreshToken with
            | some r => some r
            | none => stored.refreshToken,
          expiresAt := match resp.expiresAt with
            | some t => some t
            | none => stored.expiresAt }
      (some next, [.refreshExchange], [next])
    | none =>
      let r := loginWithPasswordForToken username password pwSession
      (r.1, .refreshExchange :: r.2.1, r.2.2)
  | none => loginWithPasswordForToken username password pwSession

/-! ## C7 — reconnect scheduling, backoff, and disconnect suppression
(`src/cync/tcp-client.ts` lines 353–382, 384–442, 618–638, 896–927) -/

/-- The `TcpClient` connection-bookkeeping fields relevant to reconnects:
`shuttingDown`, the pending reconnect timer (carrying its delay in ms),
the attempt counter, whether login code / config were supplied, the socket,
and the heartbeat. -/
structure TcpConnState where
  shuttingDown : Bool
  reconnectTimer : Option Nat
  reconnectAttempt : Nat
  hasLoginCode : Bool
  hasConfig : Bool
  socketOpen : Bool
  heartbeatOn : Bool
deriving DecidableEq, Repr

/-- Translated from `scheduleReconnect` (lines 353–382): no-op while shutting
down, while a timer is already pending, or without loginCode/config;
otherwise arms a timer with delay `min(30_000, 1_000 * 2 ** attempt)` and
increments the attempt counter. -/
def scheduleReconnect (s : TcpConnState) : TcpConnState :=
  if s.shuttingDown then s
  else if s.reconnectTimer.isSome then s
  else if ¬s.hasLoginCode ∨ ¬s.hasConfig then s
  else
    { s with
      reconnectTimer := some (min 30000 (1000 * 2 ^ s.reconnectAttempt)),
      reconnectAttempt := s.reconnectAttempt + 1 }

/-- Translated from the socket `close` handler in `attachSocketListeners`
(lines 903–922): stops the heartbeat, detaches the socket, resets the attempt
counter to zero and clears any pending reconnect timer — it does not call
`scheduleReconnect`. -/
def onSocketClose (s : TcpConnState) : TcpConnState :=
  { s with
    heartbeatOn := false,
    socketOpen := false,
    reconnectAttempt := 0,
    reconnectTimer := none }

/-- Translated from the tail of `establishSocket` (lines 426–441) after a
successful connection: listeners attached, login blob written, heartbeat
started, attempt counter reset, pending timer cleared. -/
def establishSocketSuccess (s : TcpConnState) : TcpConnState :=
  { s with
    socketOpen := true,
    heartbeatOn := true,
    reconnectAttempt := 0,
    reconnectTimer := none }

/-- Translated from the timer callback inside `scheduleReconnect`
(lines 373–381): the timer clears itself, then `ensureConnected` runs; on
failure `scheduleReconnect('retry')` runs, on success the socket is
established. -/
def reconnectTimerFire (s : TcpConnState) (connectFails : Bool) : TcpConnState :=
  match s.reconnectTimer with
  | none => s
  | some _ =>
    let s1 := { s with reconnectTimer := none }
    if connectFails then scheduleReconnect s1 else establishSocketSuccess s1

/-- Translated from `disconnect` (lines 618–638): sets `shuttingDown`,
clears the pending timer, zeroes the attempt counter, stops the heartbeat and
destroys the socket. -/
def TcpClient.disconnect (s : TcpConnState) : TcpConnState :=
  { s with
    shuttingDown := true,
    reconnectTimer := none,
    reconnectAttempt := 0,
    heartbeatOn := false,
    socketOpen := false }

/-- The autonomous events that can touch the reconnect timer after the owner
stops driving the client (`connect()` is an owner action and is excluded). -/
inductive TcpEvent where
  | schedule
  | close
  | timerFire (connectFails : Bool)
deriving DecidableEq, Repr

/-- Apply one autonomous event. -/
def applyTcpEvent (s : TcpConnState) : TcpEvent → TcpConnState
  | .schedule => scheduleReconnect s
  | .close => onSocketClose s
  | .timerFire f => reconnectTimerFire s f

/-- Apply a sequence of autonomous events. -/
def applyTcpEvents (s : TcpConnState) (evs : List TcpEvent) : TcpConnState :=
  evs.foldl applyTcpEvent s

/-! ## C2 / C10 — FIFO command queue over the shared socket
(`src/cync/tcp-client.ts` lines 153–178, 515–553, 661–719) -/

/-- Little-endian 2-byte encoding (`Buffer.writeUInt16LE`), used for the
mesh index inside command packets. -/
def u16le (n : Nat) : List Nat :=
  [n % 256, n / 256 % 256]

/-- Translated from `buildPowerPacket` (lines 515–553): header, 4-byte BE
controller id, 2-byte BE sequence number, fixed middle, 2-byte LE mesh id,
on/off tail (the source's `on` parameter is `isOn` here, `on` being a Lean keyword), checksum `(seed + meshBytes[0] + meshBytes[1]) & 0xff` with seed
430 for on and 429 for off, end byte `0x7e`. -/
def buildPowerPacket (controllerId meshId : Nat) (isOn : Bool) (seq : Nat) :
    List Nat :=
  let header := [0x73, 0x00, 0x00, 0x00, 0x1f]
  let switchBytes := u32be controllerId
  let seqBytes := u16be seq
  let middle := [0x00, 0x7e, 0x00, 0x00, 0x00, 0x00, 0xf8, 0xd0, 0x0d,
    0x00, 0x00, 0x00, 0x00, 0x00, 0x00]
  let meshBytes := u16le meshId
  let tail := if isOn then [0xd0, 0x00, 0x00, 0x01, 0x00, 0x00]
    else [0xd0, 0x00, 0x00, 0x00, 0x00, 0x00]
  let checksumSeed := if isOn then 430 else 429
  let checksum := [(checksumSeed + meshBytes.getD 0 0 + meshBytes.getD 1 0) % 256]
  header ++ switchBytes ++ seqBytes ++ middle ++ meshBytes ++ tail
    ++ checksum ++ [0x7e]

/-- One step of an enqueued command body: an atomic `socket.write` of a whole
packet, or the point at which the body throws/rejects. -/
inductive CmdStep where
  | write (packet : List Nat)
  | fail
deriving DecidableEq, Repr

/-- State of the promise-chained command queue (`enqueueCommand`,
lines 153–178): `pending` are the chained bodies not yet started (FIFO),
`running` is the body currently in flight (the chain runs at most one at a
time: each `.then` continuation starts only after its predecessor settled),
`trace` is the sequence of packets written to the socket, `settled` records
each finished caller promise (`true` resolved / `false` rejected — the
wrapper rejects only that caller's promise and the chain's `.catch` swallows
the error so the queue continues). -/
structure CmdQueueState where
  pending : List (List CmdStep)
  running : Option (List CmdStep)
  trace : List (List Nat)
  settled : List Bool
deriving DecidableEq, Repr

/-- One scheduler step of the queue, translated from the semantics of
`this.commandChain = this.commandChain.then(wrapper).catch(swallow)`:
while a body is in flight its next step executes (a write appends a whole
packet to the socket trace; a throw settles the caller's promise as rejected
and ends the body); when no body is in flight the next chained body starts;
an empty queue is quiescent. -/
def stepQueue (s : CmdQueueState) : CmdQueueState :=
  match s.running with
  | some (CmdStep.write p :: rest) =>
      { s with running := some rest, trace := s.trace ++ [p] }
  | some (CmdStep.fail :: _) =>
      { s with running := none, settled := s.settled ++ [false] }
  | some [] =>
      { s with running := none, settled := s.settled ++ [true] }
  | none =>
    match s.pending with
    | b :: bs => { s with pending := bs, running := some b }
    | [] => s

/-- Iterate the scheduler. -/
def iterQueue : Nat → CmdQueueState → CmdQueueState
  | 0, s => s
  | n + 1, s => iterQueue n (stepQueue s)

/-- Steps needed to run one body to settlement. -/
def bodyFuel : List CmdStep → Nat
  | [] => 1
  | CmdStep.write _ :: rest => 1 + bodyFuel rest
  | CmdStep.fail :: _ => 1

/-- Steps needed to drain a whole queue. -/
def queueFuel : List (List CmdStep) → Nat
  | [] => 0
  | b :: bs => 1 + bodyFuel b + queueFuel bs

/-- The packets a body writes before settling (all of them, unless it
throws first). -/
def bodyWrites : List CmdStep → List (List Nat)
  | [] => []
  | CmdStep.write p :: rest => p :: bodyWrites rest
  | CmdStep.fail :: _ => []

/-- Whether a body's caller promise resolves (no throw). -/
def bodyResolves : List CmdStep → Bool
  | [] => true
  | CmdStep.write _ :: rest => bodyResolves rest
  | CmdStep.fail :: _ => false

/-- Run a freshly enqueued list of command bodies to quiescence. -/
def runQueue (bodies : List (List CmdStep)) : CmdQueueState :=
  iterQueue (queueFuel bodies) ⟨bodies, none, [], []⟩

/-! ## C8 — device-state frame decoding priority
(`src/cync/tcp-client.ts` lines 180–284 and 985–1027) -/

/-- `Math.min(max, Math.max(min, n))` (`clampNumber` in the source). -/
def clampNumber (n lo hi : Nat) : Nat :=
  min hi (max lo n)

/-- Does the byte list start with the pattern? -/
def bytesLeadWith : List Nat → List Nat → Bool
  | _, [] => true
  | [], _ :: _ => false
  | b :: bs, p :: ps => b = p && bytesLeadWith bs ps

/-- `Buffer.indexOf`: first index at which the whole pattern occurs. -/
def indexOfSeq : List Nat → List Nat → Option Nat
  | [], pat => if bytesLeadWith [] pat then some 0 else none
  | l@(_ :: rest), pat =>
    if bytesLeadWith l pat then some 0
    else (indexOfSeq rest pat).map (· + 1)

/-- Association-list lookup for a controller-id-keyed map
(`Map<number, string>`). -/
def lookupController : List (Nat × String) → Nat → Option String
  | [], _ => none
  | (k, v) :: rest, key => if k = key then some v else lookupController rest key

/-- Association-list lookup for a homeId-keyed record
(`Record<string, string[]>`). -/
def lookupHome : List (String × List String) → String → Option (List String)
  | [], _ => none
  | (k, v) :: rest, key => if k = key then some v else lookupHome rest key

/-- Result of the legacy `parseSwitchStateFrame` decode (the source's `on`
field is `isOn` here, `on` being a Lean keyword). -/
structure LegacyParsed where
  controllerId : Nat
  isOn : Bool
  brightnessPct : Nat
deriving DecidableEq, Repr

/-- Result of the topology-based `parseLanSwitchUpdate` decode. -/
structure LanParsed where
  controllerId : Nat
  deviceId : Option String
  isOn : Bool
  brightnessPct : Nat
deriving DecidableEq, Repr

/-- Translated from `parseSwitchStateFrame` (lines 180–227): frames shorter
than 16 bytes are rejected; the controller id is the leading 32-bit BE word;
the 4-byte marker `db 11 02 01` is scanned for; the on flag and level byte
follow it; `on` requires flag `0x01` and a nonzero level; the brightness is
hard-clamped to 1–100 when on and 0 when off. -/
def parseSwitchStateFrame (frame : List Nat) : Option LegacyParsed :=
  if frame.length < 16 then none
  else
    let controllerId := readU32BE0 frame
    match indexOfSeq frame [0xdb, 0x11, 0x02, 0x01] with
    | none => none
    | some idx =>
      let onIndex := idx + 4
      let levelIndex := onIndex + 1
      if frame.length ≤ levelIndex then none
      else
        let onFlag := frame.getD onIndex 0
        let levelByte := frame.getD levelIndex 0
        let isOn := decide (onFlag = 1) && decide (0 < levelByte)
        let brightnessPct := if isOn then clampNumber levelByte 1 100 else 0
        some ⟨controllerId, isOn, brightnessPct⟩

/-- Translated from `parseLanSwitchUpdate` (lines 229–284): frames shorter
than 29 bytes are rejected; the leading 32-bit BE controller id is resolved
to a home via `switchIdToHomeId` (a falsy — missing or empty — home id
rejects); the home's slot array must exist and be nonempty; byte 13 must be
the marker `0xdb`; byte 21 indexes the slot array (out-of-range leaves
`deviceId` unset); bytes 27/28 carry on/level, with brightness hard-clamped
to 1–100 when on and 0 when off. -/
def parseLanSwitchUpdate (frame : List Nat)
    (switchIdToHomeId : List (Nat × String))
    (homeDevices : List (String × List String)) : Option LanParsed :=
  if frame.length < 29 then none
  else
    let controllerId := readU32BE0 frame
    match lookupController switchIdToHomeId controllerId with
    | none => none
    | some homeId =>
      if homeId = "" then none
      else
        match lookupHome homeDevices homeId with
        | none => none
        | some devices =>
          if devices.length = 0 then none
          else
            if frame.getD 13 0 ≠ 0xdb then none
            else
              let deviceIndex := frame.getD 21 0
              let stateByte := frame.getD 27 0
              let levelByte := frame.getD 28 0
              let deviceId :=
                if deviceIndex < devices.length then
                  some (devices.getD deviceIndex "")
                else none
              let isOn := decide (0 < stateByte)
              let brightnessPct := if isOn then clampNumber levelByte 1 100 else 0
              some ⟨controllerId, deviceId, isOn, brightnessPct⟩

/-- The payload handed to the device-update subscriber. -/
inductive FramePayload where
  | raw (frame : List Nat)
  | lan (p : LanParsed)
  | legacy (p : LegacyParsed) (deviceId : Option String)
deriving DecidableEq, Repr

/-- Translated from `handleIncomingFrame` (lines 985–1027): for state-update
types `0x73`/`0x83` the topology-based parser runs first; when it yields no
match, the legacy parse (with `controllerToDevice` fallback resolution) is
attempted only for `0x83`; everything else passes the raw frame through. -/
def handleIncomingFrame (ty : Nat) (frame : List Nat)
    (switchIdToHomeId : List (Nat × String))
    (homeDevices : List (String × List String))
    (controllerToDevice : List (Nat × String)) : FramePayload :=
  if ty = 0x73 ∨ ty = 0x83 then
    match parseLanSwitchUpdate frame switchIdToHomeId homeDevices with
    | some p => .lan p
    | none =>
      if ty = 0x83 then
        match parseSwitchStateFrame frame with
        | some q => .legacy q (lookupController controllerToDevice q.controllerId)
        | none => .raw frame
      else .raw frame
  else .raw frame

/-! ## Theorems

The claim theorems (`claim_C…`), their witnesses and counterexamples, and
the supporting lemmas about the definitions above. -/

/-- `processIncoming` leaves an incomplete buffer untouched. -/
theorem processIncoming_incomplete (buf : List Nat)
    (h : buf.length < 5 ∨ buf.length < 5 + readU32BE0 (buf.drop 1)) :
    processIncoming buf = ([], buf) := by
  rw [processIncoming]
  by_cases h5 : 5 ≤ buf.length
  · have hlt : buf.length < 5 + readU32BE0 (buf.drop 1) := by
      rcases h with h | h
      · omega
      · exact h
    rw [dif_pos h5]
    simp only [if_pos hlt]
  · rw [dif_neg h5]

/-- `processIncoming` consumes one record when the buffer holds a complete
one, then continues on the rest. -/
theorem processIncoming_step (buf : List Nat) (h5 : 5 ≤ buf.length)
    (ht : 5 + readU32BE0 (buf.drop 1) ≤ buf.length) :
    processIncoming buf =
      ((buf.getD 0 0, (buf.drop 5).take (readU32BE0 (buf.drop 1)))
          :: (processIncoming (buf.drop (5 + readU32BE0 (buf.drop 1)))).1,
        (processIncoming (buf.drop (5 + readU32BE0 (buf.drop 1)))).2) := by
  rw [processIncoming]
  rw [dif_pos h5, if_neg (by omega)]

/-- The remainder left by `processIncoming` is incomplete: running the parser
on it again consumes nothing. -/
theorem processIncoming_residue (buf : List Nat) :
    processIncoming (processIncoming buf).2 = ([], (processIncoming buf).2) := by
  induction buf using processIncoming.induct with
  | case1 buf h5 len total hlt =>
      have hlt2 : buf.length < 5 + readU32BE0 (buf.drop 1) := hlt
      rw [processIncoming_incomplete buf (Or.inr hlt2)]
      exact processIncoming_incomplete buf (Or.inr hlt2)
  | case2 buf h5 len total hnlt ih =>
      have hnlt2 : ¬buf.length < 5 + readU32BE0 (buf.drop 1) := hnlt
      rw [processIncoming_step buf h5 (by omega)]
      exact ih
  | case3 buf h5 =>
      rw [processIncoming_incomplete buf (Or.inl (by omega))]
      exact processIncoming_incomplete buf (Or.inl (by omega))

/-- `getD` on an append reads from the first list while in range. -/
theorem getD_append_lt (l₁ l₂ : List Nat) (n d : Nat) (h : n < l₁.length) :
    (l₁ ++ l₂).getD n d = l₁.getD n d := by
  simp [List.getD_eq_getElem?_getD, List.getElem?_append_left h]

/-- Reading a 32-bit header value is unaffected by bytes appended later. -/
theorem readU32BE0_append (l c : List Nat) (h : 4 ≤ l.length) :
    readU32BE0 (l ++ c) = readU32BE0 l := by
  unfold readU32BE0
  rw [getD_append_lt l c 0 0 (by omega), getD_append_lt l c 1 0 (by omega),
    getD_append_lt l c 2 0 (by omega), getD_append_lt l c 3 0 (by omega)]

/-- Auxiliary strong induction (on a length bound) for
`processIncoming_append`. -/
theorem processIncoming_append_aux :
    ∀ (n : Nat) (buf c : List Nat), buf.length ≤ n →
      processIncoming (buf ++ c) =
        ((processIncoming buf).1 ++ (processIncoming ((processIncoming buf).2 ++ c)).1,
          (processIncoming ((processIncoming buf).2 ++ c)).2) := by
  intro n
  induction n with
  | zero =>
      intro buf c hn
      have hb : buf = [] := List.eq_nil_of_length_eq_zero (by omega)
      subst hb
      rw [processIncoming_incomplete [] (Or.inl (by simp))]
      simp
  | succ n ih =>
      intro buf c hn
      by_cases h5 : 5 ≤ buf.length
      · by_cases hlt : buf.length < 5 + readU32BE0 (buf.drop 1)
        · rw [processIncoming_incomplete buf (Or.inr hlt)]
          simp
        · have hd1 : (buf ++ c).drop 1 = buf.drop 1 ++ c :=
            List.drop_append_of_le_length (by omega)
          have hlen : readU32BE0 ((buf ++ c).drop 1) = readU32BE0 (buf.drop 1) := by
            rw [hd1]
            exact readU32BE0_append _ _ (by simp only [List.length_drop]; omega)
          have h5c : 5 ≤ (buf ++ c).length := by
            rw [List.length_append]; omega
          have htc : 5 + readU32BE0 ((buf ++ c).drop 1) ≤ (buf ++ c).length := by
            rw [hlen, List.length_append]; omega
          have hhd : (buf ++ c).getD 0 0 = buf.getD 0 0 :=
            getD_append_lt _ _ _ _ (by omega)
          have hbody : ((buf ++ c).drop 5).take (readU32BE0 ((buf ++ c).drop 1))
              = (buf.drop 5).take (readU32BE0 (buf.drop 1)) := by
            rw [hlen, List.drop_append_of_le_length (show 5 ≤ buf.length by omega)]
            exact List.take_append_of_le_length
              (by simp only [List.length_drop]; omega)
          have hrest : (buf ++ c).drop (5 + readU32BE0 ((buf ++ c).drop 1))
              = buf.drop (5 + readU32BE0 (buf.drop 1)) ++ c := by
            rw [hlen]
            exact List.drop_append_of_le_length (by omega)
          rw [processIncoming_step (buf ++ c) h5c htc,
            processIncoming_step buf h5 (by omega), hhd, hbody, hrest,
            ih (buf.drop (5 + readU32BE0 (buf.drop 1))) c
              (by simp only [List.length_drop]; omega)]
          simp only [List.cons_append]
      · rw [processIncoming_incomplete buf (Or.inl (by omega))]
        simp

/-- Incremental-parsing law: running the parser on `buf ++ c` dispatches the
records of `buf` first and then continues from `buf`'s remainder with `c`
appended. -/
theorem processIncoming_append (buf c : List Nat) :
    processIncoming (buf ++ c) =
      ((processIncoming buf).1 ++ (processIncoming ((processIncoming buf).2 ++ c)).1,
        (processIncoming ((processIncoming buf).2 ++ c)).2) :=
  processIncoming_append_aux buf.length buf c le_rfl

/-- Folding the data handler over a chunk list, starting from dispatched
records `fs` and an incomplete buffered remainder `r`, is the same as parsing
the concatenated stream. -/
theorem foldl_feedChunk (chunks : List (List Nat)) :
    ∀ (fs : List (Nat × List Nat)) (r : List Nat), processIncoming r = ([], r) →
      chunks.foldl feedChunk (fs, r) =
        (fs ++ (processIncoming (r ++ chunks.flatten)).1,
          (processIncoming (r ++ chunks.flatten)).2) := by
  induction chunks with
  | nil =>
      intro fs r hr
      simp [List.flatten, hr]
  | cons c cs ih =>
      intro fs r hr
      have hstep : feedChunk (fs, r) c
          = (fs ++ (processIncoming (r ++ c)).1, (processIncoming (r ++ c)).2) := rfl
      rw [List.foldl_cons, hstep,
        ih (fs ++ (processIncoming (r ++ c)).1) (processIncoming (r ++ c)).2
          (processIncoming_residue (r ++ c))]
      rw [List.flatten_cons, ← List.append_assoc,
        processIncoming_append (r ++ c) cs.flatten]
      simp [List.append_assoc]

/-- With enough fuel, the twin agrees with `processIncoming`. -/
theorem processIncomingFuel_eq :
    ∀ (fuel : Nat) (buf : List Nat), buf.length ≤ fuel →
      processIncomingFuel fuel buf = processIncoming buf := by
  intro fuel
  induction fuel with
  | zero =>
      intro buf hn
      have hb : buf = [] := List.eq_nil_of_length_eq_zero (by omega)
      subst hb
      rw [processIncoming_incomplete [] (Or.inl (by simp))]
      rfl
  | succ n ih =>
      intro buf hn
      by_cases h5 : 5 ≤ buf.length
      · by_cases hlt : buf.length < 5 + readU32BE0 (buf.drop 1)
        · rw [processIncoming_incomplete buf (Or.inr hlt)]
          simp only [processIncomingFuel, if_pos h5]
          rw [if_pos hlt]
        · rw [processIncoming_step buf h5 (by omega)]
          simp only [processIncomingFuel, if_pos h5]
          rw [if_neg hlt,
            ih (buf.drop (5 + readU32BE0 (buf.drop 1)))
              (by simp only [List.length_drop]; omega)]
      · rw [processIncoming_incomplete buf (Or.inl (by omega))]
        simp only [processIncomingFuel, if_neg h5]

/-- C3: for every incoming byte stream split arbitrarily across socket reads,
the inbound parser consumes a `[1-byte type][4-byte big-endian length][payload]`
record only once all payload bytes have arrived, leaves the unconsumed
remainder buffered, and dispatches each complete record exactly once — feeding
the chunks one read at a time produces exactly the records of the concatenated
stream, never early and never duplicated.  In particular, two frames delivered
across three reads (header in read 1, partial payload in read 2, remainder in
read 3) yield exactly the two frames, and after only the first two reads
nothing has been dispatched yet. -/
theorem claim_C3_framing_incremental :
    (∀ chunks : List (List Nat), feedAll chunks = processIncoming chunks.flatten) ∧
    feedAll [[0x11, 0, 0, 0, 3], [1, 2], [3, 0x22, 0, 0, 0, 2, 9, 8]]
      = ([(0x11, [1, 2, 3]), (0x22, [9, 8])], []) ∧
    feedAll [[0x11, 0, 0, 0, 3], [1, 2]] = ([], [0x11, 0, 0, 0, 3, 1, 2]) := by
  have huniv : ∀ chunks : List (List Nat),
      feedAll chunks = processIncoming chunks.flatten := by
    intro chunks
    rw [feedAll,
      foldl_feedChunk chunks [] [] (processIncoming_incomplete [] (Or.inl (by simp)))]
    simp
  refine ⟨huniv, ?_, ?_⟩
  · rw [huniv,
      show ([[0x11, 0, 0, 0, 3], [1, 2], [3, 0x22, 0, 0, 0, 2, 9, 8]] :
          List (List Nat)).flatten
        = [0x11, 0, 0, 0, 3, 1, 2, 3, 0x22, 0, 0, 0, 2, 9, 8] from rfl,
      ← processIncomingFuel_eq 15 _ (by simp)]
    decide
  · rw [huniv,
      show ([[0x11, 0, 0, 0, 3], [1, 2]] : List (List Nat)).flatten
        = [0x11, 0, 0, 0, 3, 1, 2] from rfl,
      ← processIncomingFuel_eq 7 _ (by simp)]
    decide

/-- C1: for every numeric `homeId ≠ 0` and numeric `rawDeviceId`, the mesh
index computed during configuration load equals
`(mod mod 1000) + floor(mod / 1000) * 256` with `mod = rawDeviceId mod homeId`,
and recomputing on the same inputs yields the same index (the computation is a
pure function of its two inputs). -/
theorem claim_C1_mesh_index (homeId rawDeviceId : Int) (h : homeId ≠ 0) :
    loadConfigMeshIndex homeId rawDeviceId = some (specMeshIndex homeId rawDeviceId) ∧
    loadConfigMeshIndex homeId rawDeviceId = loadConfigMeshIndex homeId rawDeviceId := by
  refine ⟨?_, rfl⟩
  simp [loadConfigMeshIndex, specMeshIndex, h]

/-- Witness for C1 at `homeId = 1234567`, `rawDeviceId = 87654321`. -/
theorem claim_C1_mesh_index_witness :
    (1234567 : Int) ≠ 0 ∧
      (loadConfigMeshIndex 1234567 87654321 = some (specMeshIndex 1234567 87654321) ∧
        loadConfigMeshIndex 1234567 87654321 = loadConfigMeshIndex 1234567 87654321) :=
  ⟨by decide, claim_C1_mesh_index 1234567 87654321 (by decide)⟩

/-- C9 counterexample: at `authorize = "a"`, `userId = 2 ^ 32` the two builder
implementations do not produce identical bytes — `CyncClient.buildLanLoginCode`
throws a `RangeError` from `writeUInt32BE` while `ConfigClient.buildLanLoginCode`
wraps the user id with `>>> 0` and returns a blob. -/
theorem claim_C9_counterexample :
    CyncClient.buildLanLoginCode ['a'] 4294967296
        = .error "RangeError: writeUInt32BE value out of range" ∧
    ConfigClient.buildLanLoginCode 4294967296 ['a'] = .ok (specLanLoginBlob ['a'] 0) ∧
    CyncClient.buildLanLoginCode ['a'] 4294967296
        ≠ ConfigClient.buildLanLoginCode 4294967296 ['a'] := by
  have h1 : CyncClient.buildLanLoginCode ['a'] 4294967296
      = .error "RangeError: writeUInt32BE value out of range" := rfl
  have h2 : ConfigClient.buildLanLoginCode 4294967296 ['a']
      = .ok (specLanLoginBlob ['a'] 0) := rfl
  refine ⟨h1, h2, ?_⟩
  rw [h1, h2]
  exact fun h => Except.noConfusion h

/-- C9 (amended): for every authorize code whose byte length is at most 245
and every numeric userId in `[0, 2 ^ 32)`, both builder implementations return
exactly the documented concatenation — fixed header, one length byte
(`10 +` authorize length), command tag, big-endian 4-byte userId, big-endian
2-byte authorize length, the authorize bytes, fixed trailer — and hence
identical bytes, re-derivable from the pair `(authorizeCode, userId)`. -/
theorem claim_C9_lan_login_blob (authorize : List Char) (userId : Int)
    (h0 : 0 ≤ userId) (hlt : userId < 4294967296)
    (hlen : (authorize.map asciiByte).length ≤ 245) :
    ConfigClient.buildLanLoginCode userId authorize
        = .ok (specLanLoginBlob authorize userId.toNat) ∧
    CyncClient.buildLanLoginCode authorize userId
        = .ok (specLanLoginBlob authorize userId.toNat) := by
  have he : userId.emod 4294967296 = userId := Int.emod_eq_of_lt h0 hlt
  constructor
  · simp only [ConfigClient.buildLanLoginCode, specLanLoginBlob]
    rw [if_neg (by omega), if_neg (by omega), he,
      Nat.mod_eq_of_lt (by omega)]
  · simp only [CyncClient.buildLanLoginCode, specLanLoginBlob]
    rw [if_neg (by omega), if_neg (by omega),
      Nat.mod_eq_of_lt (by omega)]

/-- Witness for C9 (amended) at `authorize = "abc"`, `userId = 77`. -/
theorem claim_C9_lan_login_blob_witness :
    (0 ≤ (77 : Int) ∧ (77 : Int) < 4294967296 ∧
        ((['a', 'b', 'c'].map asciiByte).length ≤ 245)) ∧
      (ConfigClient.buildLanLoginCode 77 ['a', 'b', 'c']
          = .ok (specLanLoginBlob ['a', 'b', 'c'] (77 : Int).toNat) ∧
        CyncClient.buildLanLoginCode ['a', 'b', 'c'] 77
          = .ok (specLanLoginBlob ['a', 'b', 'c'] (77 : Int).toNat)) :=
  ⟨⟨by decide, by decide, by decide⟩,
    claim_C9_lan_login_blob ['a', 'b', 'c'] 77 (by decide) (by decide) (by decide)⟩

/-- C4 counterexample: a stored credential with `expiresAt = now + 30s`
(inside the claimed 60-second skew) is returned as valid with no refresh
attempt — contradicting the claim that a refresh is triggered first. -/
theorem claim_C4_counterexample :
    ensureLoggedIn
        (some ⟨"42", "tok", some "rt", some 30000, none, none⟩)
        0 "user@example.com" "pw" none
      = ⟨.usedStored ⟨"42", "tok", some "rt", some 30000, none, none⟩, false⟩ := by
  decide

/-- C4 (amended): for every stored credential, if `expiresAt` is absent (or
`0`, which JS truthiness treats as absent) the credential is returned as
valid; if `expiresAt` is in the future — by any margin, even 30 seconds —
it is likewise returned as valid; if `expiresAt` is nonzero and in the past,
the store drops the credential and the 2FA bootstrap path runs instead.  In
no case is a refresh attempted: there is no 60-second proactive-refresh
skew in the code. -/
theorem claim_C4_token_expiry (stored : CyncTokenData) (now : Int)
    (username password : String) (twoFactor : Option String)
    (hu : username ≠ "") :
    (stored.expiresAt = none →
      ensureLoggedIn (some stored) now username password twoFactor
        = ⟨.usedStored stored, false⟩) ∧
    (∀ e : Int, stored.expiresAt = some e → now < e →
      ensureLoggedIn (some stored) now username password twoFactor
        = ⟨.usedStored stored, false⟩) ∧
    (∀ e : Int, stored.expiresAt = some e → e ≠ 0 → e ≤ now →
      ∀ t : CyncTokenData,
        (ensureLoggedIn (some stored) now username password twoFactor).outcome
          ≠ .usedStored t) ∧
    (ensureLoggedIn (some stored) now username password twoFactor).refreshAttempted
      = false := by
  refine ⟨?_, ?_, ?_, ?_⟩
  · intro he
    simp [ensureLoggedIn, CyncTokenStore.load, he]
  · intro e he hnow
    simp only [ensureLoggedIn, CyncTokenStore.load, he]
    rw [if_neg (by omega)]
  · intro e he hne hle t
    simp only [ensureLoggedIn, CyncTokenStore.load, he]
    rw [if_pos ⟨hne, hle⟩]
    by_cases hp : password = ""
    · simp [hp]
    · rw [if_neg (by simp [hu, hp])]
      by_cases hc : (match twoFactor with
        | some s => s.trim
        | none => "") = ""
      · simp only [hc, if_pos rfl]
        exact fun h => LoginOutcome.noConfusion h
      · rw [if_neg hc]
        exact fun h => LoginOutcome.noConfusion h
  · rcases h : CyncTokenStore.load (some stored) now with _ | tok
    · simp only [ensureLoggedIn, h]
      by_cases hp : username = "" ∨ password = ""
      · simp [hp]
      · rw [if_neg hp]
        by_cases hc : (match twoFactor with
          | some s => s.trim
          | none => "") = ""
        · simp [hc]
        · rw [if_neg hc]
    · simp [ensureLoggedIn, h]

/-- Witness for C4 (amended): concrete stored credentials at `now = 0`
with `expiresAt` absent, `now + 30s`, and `now - 10s`. -/
theorem claim_C4_token_expiry_witness :
    ("u@x" ≠ "") ∧
      ((CyncTokenData.mk "7" "t" none (some 30000) none none).expiresAt = none →
        ensureLoggedIn (some ⟨"7", "t", none, some 30000, none, none⟩) 0 "u@x" "p" none
          = ⟨.usedStored ⟨"7", "t", none, some 30000, none, none⟩, false⟩) ∧
      (∀ e : Int,
        (CyncTokenData.mk "7" "t" none (some 30000) none none).expiresAt = some e →
        (0 : Int) < e →
        ensureLoggedIn (some ⟨"7", "t", none, some 30000, none, none⟩) 0 "u@x" "p" none
          = ⟨.usedStored ⟨"7", "t", none, some 30000, none, none⟩, false⟩) ∧
      (∀ e : Int,
        (CyncTokenData.mk "7" "t" none (some 30000) none none).expiresAt = some e →
        e ≠ 0 → e ≤ 0 →
        ∀ t : CyncTokenData,
          (ensureLoggedIn (some ⟨"7", "t", none, some 30000, none, none⟩) 0 "u@x" "p"
              none).outcome
            ≠ .usedStored t) ∧
      (ensureLoggedIn (some ⟨"7", "t", none, some 30000, none, none⟩) 0 "u@x" "p"
          none).refreshAttempted
        = false :=
  ⟨by decide, claim_C4_token_expiry ⟨"7", "t", none, some 30000, none, none⟩ 0
    "u@x" "p" none (by decide)⟩

/-- C5: a cloud call that fails with the access-token-expired signature
(recognized from the numeric code 4031021, the message substring
`'Access-Token Expired'`, or HTTP 403 with that substring) is retried exactly
once after a successful refresh, and the retried call's outcome — success or
failure — is handed to the caller unmodified; no wrapper ever makes more than
two underlying calls. -/
theorem claim_C5_retry_once {α : Type} (e : CloudError) (empty : α)
    (second : Except CloudError α)
    (hexp : isAccessTokenExpiredError (some e) = true)
    (hnp : isDevicePropertyNotExistsError (some e) = false) :
    getCloudConfigWithRefresh (.error e) true true second = (second, 2) ∧
    getDevicePropertiesWithRefresh false empty (.error e) true true second
      = (second, 2) ∧
    (∀ (first : Except CloudError α) (ht rok : Bool)
        (sec : Except CloudError α),
      (getCloudConfigWithRefresh first ht rok sec).2 ≤ 2) ∧
    (∀ (unsup : Bool) (first : Except CloudError α) (ht rok : Bool)
        (sec : Except CloudError α),
      (getDevicePropertiesWithRefresh unsup empty first ht rok sec).2 ≤ 2) ∧
    isAccessTokenExpiredError
        (some ⟨false, none, none, some ⟨none, some 4031021⟩⟩) = true ∧
    isAccessTokenExpiredError
        (some ⟨true, some "Access-Token Expired", none, none⟩) = true ∧
    isAccessTokenExpiredError
        (some ⟨false, some "HTTP 403: Access-Token Expired", some 403, none⟩)
      = true := by
  refine ⟨?_, ?_, ?_, ?_, by decide, by decide, by decide⟩
  · simp [getCloudConfigWithRefresh, hexp]
  · simp [getDevicePropertiesWithRefresh, hnp, hexp]
  · intro first ht rok sec
    rcases first with e1 | v
    · simp only [getCloudConfigWithRefresh]
      split
      · split <;> omega
      · omega
    · simp [getCloudConfigWithRefresh]
  · intro unsup first ht rok sec
    rcases first with e1 | v
    · simp only [getDevicePropertiesWithRefresh]
      split
      · omega
      · split
        · omega
        · split
          · split <;> omega
          · omega
    · simp only [getDevicePropertiesWithRefresh]
      split <;> simp

/-- Witness for C5: a first call failing with an `Error` whose message is
`'Access-Token Expired'`, a successful refresh, and a retried call that fails
with an unrelated HTTP 500 error that reaches the caller unmodified. -/
theorem claim_C5_retry_once_witness :
    (isAccessTokenExpiredError
        (some ⟨true, some "Access-Token Expired", none, none⟩) = true ∧
      isDevicePropertyNotExistsError
        (some ⟨true, some "Access-Token Expired", none, none⟩) = false) ∧
      (getCloudConfigWithRefresh (α := Nat)
          (.error ⟨true, some "Access-Token Expired", none, none⟩) true true
          (.error ⟨false, some "boom", some 500, none⟩)
        = (.error ⟨false, some "boom", some 500, none⟩, 2) ∧
      getDevicePropertiesWithRefresh false 0
          (.error ⟨true, some "Access-Token Expired", none, none⟩) true true
          (.error ⟨false, some "boom", some 500, none⟩)
        = (.error ⟨false, some "boom", some 500, none⟩, 2) ∧
      (∀ (first : Except CloudError Nat) (ht rok : Bool)
          (sec : Except CloudError Nat),
        (getCloudConfigWithRefresh first ht rok sec).2 ≤ 2) ∧
      (∀ (unsup : Bool) (first : Except CloudError Nat) (ht rok : Bool)
          (sec : Except CloudError Nat),
        (getDevicePropertiesWithRefresh unsup 0 first ht rok sec).2 ≤ 2) ∧
      isAccessTokenExpiredError
          (some ⟨false, none, none, some ⟨none, some 4031021⟩⟩) = true ∧
      isAccessTokenExpiredError
          (some ⟨true, some "Access-Token Expired", none, none⟩) = true ∧
      isAccessTokenExpiredError
          (some ⟨false, some "HTTP 403: Access-Token Expired", some 403, none⟩)
        = true) :=
  ⟨⟨by decide, by decide⟩,
    claim_C5_retry_once ⟨true, some "Access-Token Expired", none, none⟩ 0
      (.error ⟨false, some "boom", some 500, none⟩) (by decide) (by decide)⟩

/-- Shape of `loginWithPasswordForToken`: it makes at most the single
`passwordLogin` call (exactly that call when credentials are present), and
whenever it returns a token that token is exactly what it saved. -/
theorem loginWithPasswordForToken_shape (u p : String) (s : Option PwSession) :
    ((loginWithPasswordForToken u p s).2.1 = []
        ∨ (loginWithPasswordForToken u p s).2.1 = [CloudCall.passwordLogin]) ∧
    (∀ tok, (loginWithPasswordForToken u p s).1 = some tok →
      (loginWithPasswordForToken u p s).2.2 = [tok]) ∧
    (¬(u = "" ∨ p = "") →
      (loginWithPasswordForToken u p s).2.1 = [CloudCall.passwordLogin]) := by
  unfold loginWithPasswordForToken
  by_cases hc : u = "" ∨ p = ""
  · simp [hc]
  · rcases s with _ | sess
    · simp [hc]
    · rcases hA : sess.accessToken with _ | a
      · simp [hc, hA]
      · simp only [if_neg hc, hA]
        split <;> simp

/-- C6: refreshing a stored credential tries the refresh-token exchange first
(when one is stored), and on any failure of that exchange — including the case
of no stored refresh token, where the exchange is skipped entirely — falls
back to the full password re-login; the flow never issues a 2FA code request
or a 2FA login, and whenever it returns a fresh credential it has persisted
exactly that credential. -/
theorem claim_C6_refresh_fallback (stored : CyncTokenData)
    (exchange : Option RefreshResp) (pwSession : Option PwSession)
    (username password : String)
    (hu : username ≠ "") (hp : password ≠ "") :
    (stored.refreshToken = none →
      CyncClient.refreshAccessToken stored exchange pwSession username password
        = loginWithPasswordForToken username password pwSession) ∧
    (∀ rt : String, stored.refreshToken = some rt → exchange = none →
      (CyncClient.refreshAccessToken stored exchange pwSession username
          password).2.1
        = [CloudCall.refreshExchange, CloudCall.passwordLogin] ∧
      (CyncClient.refreshAccessToken stored exchange pwSession username
          password).1
        = (loginWithPasswordForToken username password pwSession).1) ∧
    (CloudCall.twoFactorRequest
        ∉ (CyncClient.refreshAccessToken stored exchange pwSession username
            password).2.1 ∧
      CloudCall.twoFactorLogin
        ∉ (CyncClient.refreshAccessToken stored exchange pwSession username
            password).2.1) ∧
    (∀ rt : String, stored.refreshToken = some rt →
      (CyncClient.refreshAccessToken stored exchange pwSession username
          password).2.1.head?
        = some CloudCall.refreshExchange) ∧
    (∀ tok : CyncTokenData,
      (CyncClient.refreshAccessToken stored exchange pwSession username
          password).1
        = some tok →
      tok ∈ (CyncClient.refreshAccessToken stored exchange pwSession username
          password).2.2) := by
  obtain ⟨hcalls, hsaves, hfull⟩ :=
    loginWithPasswordForToken_shape username password pwSession
  have hfull2 : (loginWithPasswordForToken username password pwSession).2.1
      = [CloudCall.passwordLogin] := hfull (by simp [hu, hp])
  refine ⟨?_, ?_, ?_, ?_, ?_⟩
  · intro hrt
    simp [CyncClient.refreshAccessToken, hrt]
  · intro rt hrt hex
    simp [CyncClient.refreshAccessToken, hrt, hex, hfull2]
  · constructor
    · rcases hrt : stored.refreshToken with _ | rt
      · simp only [CyncClient.refreshAccessToken, hrt]
        rw [hfull2]
        simp
      · rcases hex : exchange with _ | resp
        · simp only [CyncClient.refreshAccessToken, hrt, hex]
          rw [hfull2]
          simp
        · simp [CyncClient.refreshAccessToken, hrt, hex]
    · rcases hrt : stored.refreshToken with _ | rt
      · simp only [CyncClient.refreshAccessToken, hrt]
        rw [hfull2]
        simp
      · rcases hex : exchange with _ | resp
        · simp only [CyncClient.refreshAccessToken, hrt, hex]
          rw [hfull2]
          simp
        · simp [CyncClient.refreshAccessToken, hrt, hex]
  · intro rt hrt
    rcases hex : exchange with _ | resp
    · simp [CyncClient.refreshAccessToken, hrt, hex]
    · simp [CyncClient.refreshAccessToken, hrt, hex]
  · intro tok htok
    rcases hrt : stored.refreshToken with _ | rt
    · simp only [CyncClient.refreshAccessToken, hrt] at htok ⊢
      rw [hsaves tok htok]
      simp
    · rcases hex : exchange with _ | resp
      · simp only [CyncClient.refreshAccessToken, hrt, hex] at htok ⊢
        rw [hsaves tok htok]
        simp
      · simp only [CyncClient.refreshAccessToken, hrt, hex] at htok ⊢
        simp only [Option.some.injEq] at htok
        simp [htok]

/-- Witness for C6: stored credential with a refresh token whose exchange
throws; the flow records the exchange attempt followed by the password
login. -/
theorem claim_C6_refresh_fallback_witness :
    ("u@x" ≠ "") ∧ ("pw" ≠ "") ∧
      (CyncClient.refreshAccessToken
          ⟨"9", "old", some "rt", none, none, none⟩ none
          (some ⟨"9", some 9, some "ntok", some "nrt", some 99, some "AUTH"⟩)
          "u@x" "pw").2.1
        = [CloudCall.refreshExchange, CloudCall.passwordLogin] :=
  ⟨by decide, by decide,
    ((claim_C6_refresh_fallback ⟨"9", "old", some "rt", none, none, none⟩ none
        (some ⟨"9", some 9, some "ntok", some "nrt", some 99, some "AUTH"⟩)
        "u@x" "pw" (by decide) (by decide)).2.1 "rt" rfl rfl).1⟩

/-- After `disconnect()`, `shuttingDown` stays set and no autonomous event
can arm the reconnect timer. -/
theorem disconnect_suppresses (evs : List TcpEvent) :
    ∀ t : TcpConnState, t.shuttingDown = true → t.reconnectTimer = none →
      (applyTcpEvents t evs).shuttingDown = true ∧
        (applyTcpEvents t evs).reconnectTimer = none := by
  induction evs with
  | nil => exact fun t h1 h2 => ⟨h1, h2⟩
  | cons e es ih =>
      intro t h1 h2
      have hstep : (applyTcpEvent t e).shuttingDown = true ∧
          (applyTcpEvent t e).reconnectTimer = none := by
        cases e with
        | schedule => simp [applyTcpEvent, scheduleReconnect, h1, h2]
        | close => simp [applyTcpEvent, onSocketClose, h1]
        | timerFire f => simp [applyTcpEvent, reconnectTimerFire, h1, h2]
      exact ih (applyTcpEvent t e) hstep.1 hstep.2

/-- C7 counterexample: an unexpected socket close does not schedule any
reconnect attempt — the `close` handler leaves no timer pending (it even
cancels a previously armed retry timer) and resets the attempt counter,
contradicting the claim that a reconnect with delay
`min(30s, 1s·2^n)` is scheduled after the close. -/
theorem claim_C7_counterexample :
    (onSocketClose ⟨false, some 4000, 2, true, true, true, true⟩).reconnectTimer
        = none ∧
    (onSocketClose ⟨false, none, 2, true, true, true, true⟩).reconnectTimer
        = none ∧
    (onSocketClose ⟨false, none, 2, true, true, true, true⟩).reconnectAttempt
        = 0 := by
  decide

/-- C7 (amended): `scheduleReconnect`, whenever it actually arms a timer
(not shutting down, none pending, login code and config present), uses delay
`min(30_000, 1_000 * 2 ^ n)` for the n-th consecutive attempt and increments
the counter; the counter resets to zero once a connection is cleanly
established; after the owner calls `disconnect()` no pending or future
reconnect attempt fires.  However, an unexpected socket close does not itself
schedule a reconnect: the close handler clears any pending reconnect timer
and resets the counter. -/
theorem claim_C7_reconnect_policy (s : TcpConnState) :
    (s.shuttingDown = false → s.reconnectTimer = none →
      s.hasLoginCode = true → s.hasConfig = true →
      (scheduleReconnect s).reconnectTimer
          = some (min 30000 (1000 * 2 ^ s.reconnectAttempt)) ∧
        (scheduleReconnect s).reconnectAttempt = s.reconnectAttempt + 1) ∧
    (establishSocketSuccess s).reconnectAttempt = 0 ∧
    (onSocketClose s).reconnectTimer = none ∧
    (∀ evs : List TcpEvent,
      (applyTcpEvents (TcpClient.disconnect s) evs).reconnectTimer = none) := by
  refine ⟨?_, rfl, rfl, ?_⟩
  · intro h1 h2 h3 h4
    simp [scheduleReconnect, h1, h2, h3, h4]
  · intro evs
    exact (disconnect_suppresses evs (TcpClient.disconnect s) rfl rfl).2

/-- Witness for C7 (amended) at a concrete idle state with attempt counter 3:
the armed delay is `min(30s, 8s) = 8s`, and after `disconnect()` a burst of
schedule/close/timer events leaves no timer armed. -/
theorem claim_C7_reconnect_policy_witness :
    (scheduleReconnect ⟨false, none, 3, true, true, false, false⟩).reconnectTimer
        = some 8000 ∧
    (scheduleReconnect ⟨false, none, 3, true, true, false, false⟩).reconnectAttempt
        = 4 ∧
    (applyTcpEvents
        (TcpClient.disconnect ⟨false, none, 3, true, true, false, false⟩)
        [.schedule, .close, .timerFire true, .schedule]).reconnectTimer
      = none := by
  have h := claim_C7_reconnect_policy ⟨false, none, 3, true, true, false, false⟩
  refine ⟨?_, ?_, ?_⟩
  · rw [(h.1 rfl rfl rfl rfl).1]
    decide
  · rw [(h.1 rfl rfl rfl rfl).2]
  · exact h.2.2.2 [.schedule, .close, .timerFire true, .schedule]

/-- Iteration splits over addition. -/
theorem iterQueue_add (m n : Nat) :
    ∀ s : CmdQueueState, iterQueue (m + n) s = iterQueue n (iterQueue m s) := by
  induction m with
  | zero =>
      intro s
      rw [Nat.zero_add]
      rfl
  | succ k ih =>
      intro s
      have h1 : k + 1 + n = (k + n) + 1 := by omega
      rw [h1]
      show iterQueue (k + n) (stepQueue s) = iterQueue n (iterQueue k (stepQueue s))
      exact ih (stepQueue s)

/-- Running one in-flight body to settlement: its whole-packet writes land on
the trace in order and its caller promise settles once. -/
theorem iterQueue_body (b : List CmdStep) :
    ∀ s : CmdQueueState, s.running = some b →
      iterQueue (bodyFuel b) s =
        ⟨s.pending, none, s.trace ++ bodyWrites b,
          s.settled ++ [bodyResolves b]⟩ := by
  induction b with
  | nil =>
      intro s hr
      show iterQueue 0 (stepQueue s) = _
      simp only [iterQueue, stepQueue, hr, bodyWrites, bodyResolves,
        List.append_nil]
  | cons step rest ih =>
      intro s hr
      cases step with
      | write p =>
          have h1 : bodyFuel (CmdStep.write p :: rest) = 1 + bodyFuel rest := rfl
          rw [h1, iterQueue_add 1 (bodyFuel rest) s]
          have h2 : iterQueue 1 s
              = { s with running := some rest, trace := s.trace ++ [p] } := by
            show stepQueue s = _
            simp only [stepQueue, hr]
          rw [h2, ih _ rfl]
          simp [bodyWrites, bodyResolves, List.append_assoc]
      | fail =>
          show iterQueue 0 (stepQueue s) = _
          simp only [iterQueue, stepQueue, hr, bodyWrites, bodyResolves,
            List.append_nil]

/-- Draining a queue of chained bodies from an idle scheduler: the socket
trace receives each body's whole-packet writes, in issue order, one body at a
time, and every caller promise settles exactly once. -/
theorem iterQueue_drain (bodies : List (List CmdStep)) :
    ∀ s : CmdQueueState, s.running = none → s.pending = bodies →
      iterQueue (queueFuel bodies) s =
        ⟨[], none, s.trace ++ (bodies.map bodyWrites).flatten,
          s.settled ++ bodies.map bodyResolves⟩ := by
  induction bodies with
  | nil =>
      intro s hr hp
      show s = _
      obtain ⟨p, r, t, st⟩ := s
      simp_all
  | cons b bs ih =>
      intro s hr hp
      have h1 : queueFuel (b :: bs) = 1 + bodyFuel b + queueFuel bs := rfl
      rw [h1, iterQueue_add (1 + bodyFuel b) (queueFuel bs) s,
        iterQueue_add 1 (bodyFuel b) s]
      have h2 : iterQueue 1 s = { s with pending := bs, running := some b } := by
        show stepQueue s = _
        simp only [stepQueue, hr, hp]
      rw [h2, iterQueue_body b _ rfl, ih _ rfl rfl]
      simp [List.append_assoc]

/-- The queue machine's final state, in closed form. -/
theorem runQueue_spec (bodies : List (List CmdStep)) :
    runQueue bodies =
      ⟨[], none, (bodies.map bodyWrites).flatten, bodies.map bodyResolves⟩ := by
  rw [runQueue, iterQueue_drain bodies ⟨bodies, none, [], []⟩ rfl rfl]
  simp

/-- C2: enqueued command bodies (as issued by `setSwitchState`,
`setBrightness`, `setColor`, each of which performs one whole-packet
`socket.write`) execute strictly in issue order with at most one body in
flight at a time, so the socket trace is exactly the concatenation of each
body's whole packets — no interleaving of partial packets; in particular,
three power commands issued back-to-back without awaiting yield three
whole-packet writes in issue order, each caller promise resolving. -/
theorem claim_C2_command_serialization :
    (∀ bodies : List (List CmdStep),
      (runQueue bodies).trace = (bodies.map bodyWrites).flatten ∧
        (runQueue bodies).settled = bodies.map bodyResolves) ∧
    runQueue
        [[CmdStep.write (buildPowerPacket 1000 5 true 1)],
          [CmdStep.write (buildPowerPacket 1000 6 true 2)],
          [CmdStep.write (buildPowerPacket 1000 7 false 3)]]
      = ⟨[], none,
          [buildPowerPacket 1000 5 true 1, buildPowerPacket 1000 6 true 2,
            buildPowerPacket 1000 7 false 3],
          [true, true, true]⟩ := by
  constructor
  · intro bodies
    rw [runQueue_spec]
    exact ⟨rfl, rfl⟩
  · rw [runQueue_spec]
    rfl

/-- C10: a command body that throws rejects only its own caller's promise
(the chain's `.catch` swallows the failure), and every command enqueued
afterwards still executes: all callers settle, the i-th according to its own
body, and the trace still carries every body's writes. -/
theorem claim_C10_failed_command_isolated (bodies : List (List CmdStep))
    (i : Nat) (hi : i < bodies.length) :
    (runQueue bodies).settled.length = bodies.length ∧
    (runQueue bodies).settled.getD i false = bodyResolves (bodies.getD i []) ∧
    (runQueue bodies).trace = (bodies.map bodyWrites).flatten := by
  rw [runQueue_spec]
  refine ⟨by simp, ?_, rfl⟩
  have h : bodies[i]? = some bodies[i] := List.getElem?_eq_getElem hi
  simp [List.getD_eq_getElem?_getD, List.getElem?_map, h]

/-- Witness for C10: three enqueued commands where the middle body throws —
the middle caller is rejected, but the first and third writes both reach the
socket and all three callers settle. -/
theorem claim_C10_failed_command_isolated_witness :
    (1 < ([[CmdStep.write [1]], [CmdStep.fail], [CmdStep.write [3]]] :
        List (List CmdStep)).length) ∧
      ((runQueue [[CmdStep.write [1]], [CmdStep.fail],
            [CmdStep.write [3]]]).settled.length
          = ([[CmdStep.write [1]], [CmdStep.fail],
              [CmdStep.write [3]]] : List (List CmdStep)).length ∧
        (runQueue [[CmdStep.write [1]], [CmdStep.fail],
            [CmdStep.write [3]]]).settled.getD 1 false
          = bodyResolves (([[CmdStep.write [1]], [CmdStep.fail],
              [CmdStep.write [3]]] : List (List CmdStep)).getD 1 []) ∧
        (runQueue [[CmdStep.write [1]], [CmdStep.fail],
            [CmdStep.write [3]]]).trace
          = (([[CmdStep.write [1]], [CmdStep.fail],
              [CmdStep.write [3]]] : List (List CmdStep)).map bodyWrites).flatten) :=
  ⟨by decide,
    claim_C10_failed_command_isolated
      [[CmdStep.write [1]], [CmdStep.fail], [CmdStep.write [3]]] 1 (by decide)⟩

/-- Brightness from the legacy parse is clamped: at most 100, and 0 whenever
the frame decodes as off. -/
theorem parseSwitchStateFrame_clamped (frame : List Nat) (q : LegacyParsed)
    (h : parseSwitchStateFrame frame = some q) :
    q.brightnessPct ≤ 100 ∧ (q.isOn = false → q.brightnessPct = 0) := by
  simp only [parseSwitchStateFrame] at h
  split at h
  · exact absurd h (by simp)
  · split at h
    · exact absurd h (by simp)
    · split at h
      · exact absurd h (by simp)
      · injection h with h
        subst h
        constructor
        · dsimp only
          split
          · simp only [clampNumber]
            omega
          · omega
        · intro hoff
          dsimp only at hoff ⊢
          rw [hoff]
          rfl

/-- Brightness from the topology-based parse is clamped: at most 100, and 0
whenever the frame decodes as off. -/
theorem parseLanSwitchUpdate_clamped (frame : List Nat)
    (sid : List (Nat × String)) (hd : List (String × List String))
    (p : LanParsed) (h : parseLanSwitchUpdate frame sid hd = some p) :
    p.brightnessPct ≤ 100 ∧ (p.isOn = false → p.brightnessPct = 0) := by
  simp only [parseLanSwitchUpdate] at h
  split at h
  · exact absurd h (by simp)
  · split at h
    · exact absurd h (by simp)
    · split at h
      · exact absurd h (by simp)
      · split at h
        · exact absurd h (by simp)
        · split at h
          · exact absurd h (by simp)
          · split at h
            · exact absurd h (by simp)
            · injection h with h
              subst h
              constructor
              · dsimp only
                split
                · simp only [clampNumber]
                  omega
                · omega
              · intro hoff
                dsimp only at hoff ⊢
                rw [hoff]
                rfl

/-- C8 counterexample: a type-`0x73` state frame on which the topology parse
yields no match (unknown controller) and on which the legacy decode would
succeed (the 4-byte marker is present with on/level bytes after it) — the
code passes the raw frame through and never attempts the legacy decode,
contradicting the claim that the legacy decode is attempted whenever the
topology parse yields no match. -/
theorem claim_C8_counterexample :
    parseLanSwitchUpdate
        [0, 0, 0, 99, 0, 0, 0, 0, 0, 0, 0, 0, 0, 0xdb, 0x11, 0x02, 0x01, 1, 50,
          0, 0, 0, 0, 0, 0, 0, 0, 0, 0] [] []
      = none ∧
    parseSwitchStateFrame
        [0, 0, 0, 99, 0, 0, 0, 0, 0, 0, 0, 0, 0, 0xdb, 0x11, 0x02, 0x01, 1, 50,
          0, 0, 0, 0, 0, 0, 0, 0, 0, 0]
      = some ⟨99, true, 50⟩ ∧
    handleIncomingFrame 0x73
        [0, 0, 0, 99, 0, 0, 0, 0, 0, 0, 0, 0, 0, 0xdb, 0x11, 0x02, 0x01, 1, 50,
          0, 0, 0, 0, 0, 0, 0, 0, 0, 0] [] [] [(99, "dev-99")]
      = .raw [0, 0, 0, 99, 0, 0, 0, 0, 0, 0, 0, 0, 0, 0xdb, 0x11, 0x02, 0x01,
          1, 50, 0, 0, 0, 0, 0, 0, 0, 0, 0, 0] ∧
    handleIncomingFrame 0x73
        [0, 0, 0, 99, 0, 0, 0, 0, 0, 0, 0, 0, 0, 0xdb, 0x11, 0x02, 0x01, 1, 50,
          0, 0, 0, 0, 0, 0, 0, 0, 0, 0] [] [] [(99, "dev-99")]
      ≠ .legacy ⟨99, true, 50⟩ (some "dev-99") := by
  refine ⟨by decide, by decide, by decide, by decide⟩

/-- C8 (amended): for every inbound device-state frame (types `0x73`/`0x83`),
the topology-based parse is attempted first and its result wins when it
matches; when it yields no match, the legacy marker-scan decode (with
deviceId resolved via the flat controller→device fallback map) is attempted
— but only for `0x83` frames, while a `0x73` frame is passed through raw;
brightness is clamped to 0–100 in both decode paths (0 exactly when the
frame decodes as off). -/
theorem claim_C8_decode_priority (frame : List Nat)
    (sid : List (Nat × String)) (hd : List (String × List String))
    (cd : List (Nat × String)) :
    (∀ p : LanParsed, parseLanSwitchUpdate frame sid hd = some p →
      handleIncomingFrame 0x73 frame sid hd cd = .lan p ∧
        handleIncomingFrame 0x83 frame sid hd cd = .lan p) ∧
    (parseLanSwitchUpdate frame sid hd = none →
      (handleIncomingFrame 0x83 frame sid hd cd =
        match parseSwitchStateFrame frame with
        | some q => .legacy q (lookupController cd q.controllerId)
        | none => .raw frame) ∧
      handleIncomingFrame 0x73 frame sid hd cd = .raw frame) ∧
    (∀ p : LanParsed, parseLanSwitchUpdate frame sid hd = some p →
      p.brightnessPct ≤ 100 ∧ (p.isOn = false → p.brightnessPct = 0)) ∧
    (∀ q : LegacyParsed, parseSwitchStateFrame frame = some q →
      q.brightnessPct ≤ 100 ∧ (q.isOn = false → q.brightnessPct = 0)) := by
  refine ⟨?_, ?_, ?_, ?_⟩
  · intro p hp
    constructor <;> simp [handleIncomingFrame, hp]
  · intro hn
    constructor <;> simp [handleIncomingFrame, hn]
  · exact fun p hp => parseLanSwitchUpdate_clamped frame sid hd p hp
  · exact fun q hq => parseSwitchStateFrame_clamped frame q hq

/-- Witness for C8 (amended): a type-`0x73` frame whose controller id is
known to the topology, producing the topology-based decode. -/
theorem claim_C8_decode_priority_witness :
    parseLanSwitchUpdate
        [0, 0, 0, 7, 0, 0, 0, 0, 0, 0, 0, 0, 0, 0xdb, 0, 0, 0, 0, 0, 0, 0, 1,
          0, 0, 0, 0, 0, 1, 75]
        [(7, "home1")] [("home1", ["d0", "d1", "d2"])]
      = some ⟨7, some "d1", true, 75⟩ ∧
    handleIncomingFrame 0x73
        [0, 0, 0, 7, 0, 0, 0, 0, 0, 0, 0, 0, 0, 0xdb, 0, 0, 0, 0, 0, 0, 0, 1,
          0, 0, 0, 0, 0, 1, 75]
        [(7, "home1")] [("home1", ["d0", "d1", "d2"])] []
      = .lan ⟨7, some "d1", true, 75⟩ ∧
    handleIncomingFrame 0x83
        [0, 0, 0, 7, 0, 0, 0, 0, 0, 0, 0, 0, 0, 0xdb, 0, 0, 0, 0, 0, 0, 0, 1,
          0, 0, 0, 0, 0, 1, 75]
        [(7, "home1")] [("home1", ["d0", "d1", "d2"])] []
      = .lan ⟨7, some "d1", true, 75⟩ := by
  have h := (claim_C8_decode_priority
      [0, 0, 0, 7, 0, 0, 0, 0, 0, 0, 0, 0, 0, 0xdb, 0, 0, 0, 0, 0, 0, 0, 1,
        0, 0, 0, 0, 0, 1, 75]
      [(7, "home1")] [("home1", ["d0", "d1", "d2"])] []).1
    ⟨7, some "d1", true, 75⟩ (by decide)
  exact ⟨by decide, h.1, h.2⟩
